import Mathlib

/-! State recorder of the flow engine (`action/flow/instance/recorder.go`)

A shallow embedding of `RemoteStateRecorder`: its construction from a service
configuration (`NewRemoteStateRecorder`, `init`), its accessors and lifecycle
hooks, and the two recording calls `RecordSnapshot` and `RecordStep`.

Modelling conventions.

* A Go `string` is a Lean `String`; the source only concatenates strings and
  tests for the ASCII prefix `"http"`.
* A Go `map[string]string` is an association list read with the two-result
  lookup `v, ok := m[k]` (`mapIndex`).
* A `panic` is the `Except.error` result of a call.
* `http.NewRequest` builds no request when the target does not parse; whether
  `url.Parse` accepts a target is a parameter of the recording calls.
* Calls to `logger.Debug`/`logger.Debugf` only write log lines and are left out,
  as is the deferred `resp.Body.Close()`.
-/

set_option autoImplicit false
set_option linter.unusedVariables false

namespace FlowRecorder

/-! ## Library functions used by the source -/

namespace strings

/-- Scan of `strings.Index`: the first position `i + k` at which `substr` starts
in the remaining input `s`, where `i` is the number of characters already
skipped; `-1` when there is none. -/
def indexFrom (substr : List Char) : List Char → Nat → Int
  | [], i => if substr.isPrefixOf [] then (i : Int) else -1
  | c :: cs, i => if substr.isPrefixOf (c :: cs) then (i : Int) else indexFrom substr cs (i + 1)

/-- Go `strings.Index(s, substr)`: the index of the first instance of `substr`
in `s`, or `-1` if `substr` is not present in `s`. -/
def Index (s substr : String) : Int :=
  indexFrom substr.data s.data 0

end strings

/-- A Go `map[string]string`. -/
abbrev StringMap := List (String × String)

/-- The two-result map read `v, ok := m[k]`: the stored value and `true`, or the
zero value `""` and `false` when the key is absent. -/
def mapIndex (m : StringMap) (k : String) : String × Bool :=
  match m.lookup k with
  | some v => (v, true)
  | none => ("", false)

/-! ## Configuration -/

namespace util

/-- The fields of `util.ServiceConfig` that the recorder reads or sets. -/
structure ServiceConfig where
  Name : String
  Enabled : Bool
  Settings : StringMap

end util

/-! ## The recorder -/

/-- `RemoteStateRecorder`: a `StateRecorder` that ships state to a remote
collector reached at `host`. -/
structure RemoteStateRecorder where
  host : String
  enabled : Bool
  deriving DecidableEq, Repr

namespace RemoteStateRecorder

/-- `init`: reads `host` and `port` from the settings and sets `sr.host`. The
presence flag `set` is assigned twice, the second assignment (from the `port`
read) being the one the guard tests. A panic is returned as `Except.error` with
the panic message. -/
def init (sr : RemoteStateRecorder) (settings : StringMap) : Except String RemoteStateRecorder :=
  let (host, set) := mapIndex settings "host"
  let (port, set) := mapIndex settings "port"
  if !set then
    Except.error "RemoteStateRecorder: requried setting 'host' not set"
  else if strings.Index host "http" != 0 then
    Except.ok { sr with host := "http://" ++ host ++ ":" ++ port }
  else
    Except.ok { sr with host := host ++ ":" ++ port }

end RemoteStateRecorder

/-- `NewRemoteStateRecorder` creates a recorder carrying the configuration's
`Enabled` flag and initialises it from the configuration's settings. -/
def NewRemoteStateRecorder (config : util.ServiceConfig) : Except String RemoteStateRecorder :=
  RemoteStateRecorder.init { host := "", enabled := config.Enabled } config.Settings

/-- `DefaultConfig`; `ServiceStateRecorder` is the constant
`service.ServiceStateRecorder` of the service library. -/
def DefaultConfig (ServiceStateRecorder : String) : util.ServiceConfig :=
  { Name := ServiceStateRecorder, Enabled := true, Settings := [("host", "")] }


namespace RemoteStateRecorder

/-- `Name`; `ServiceStateRecorder` is the constant `service.ServiceStateRecorder`
of the service library. -/
def Name (ServiceStateRecorder : String) (sr : RemoteStateRecorder) : String :=
  ServiceStateRecorder

/-- `Enabled` returns the recorder's `enabled` flag. -/
def Enabled (sr : RemoteStateRecorder) : Bool :=
  sr.enabled

/-- `Start` is a no-op returning the `nil` error. -/
def Start (sr : RemoteStateRecorder) : Option String :=
  none

/-- `Stop` is a no-op returning the `nil` error. -/
def Stop (sr : RemoteStateRecorder) : Option String :=
  none

end RemoteStateRecorder

/-! ## Flow instances and request envelopes -/

/-- Modelled from the spec: the flow instance type `Instance`, its status type
and its change tracker type are declared outside `recorder.go`. The recorder
reads an instance only through `StepID()`, `ID()`, `State()`, `Status()` and the
field `ChangeTracker`; `int` is the conversion `int(...)` applied to a status. -/
structure InstanceAPI (Instance InstanceChangeTracker StatusCode : Type) where
  StepID : Instance → Int
  ID : Instance → String
  State : Instance → Int
  Status : Instance → StatusCode
  int : StatusCode → Int
  ChangeTracker : Instance → InstanceChangeTracker

/-- `RecordSnapshotReq`: serializable representation of the RecordSnapshot
request. -/
structure RecordSnapshotReq (Instance : Type) where
  ID : Int
  FlowID : String
  State : Int
  Status : Int
  SnapshotData : Instance

/-- `RecordStepReq`: serializable representation of the RecordStep request. -/
structure RecordStepReq (InstanceChangeTracker : Type) where
  ID : Int
  FlowID : String
  State : Int
  Status : Int
  StepData : InstanceChangeTracker

namespace json

/-- A member value of a marshalled envelope. The encoders of an instance and
of a change tracker live outside `recorder.go`, so a nested payload is kept as
the value that is handed to the encoder. -/
inductive Value (Instance InstanceChangeTracker : Type) where
  | int (n : Int)
  | string (s : String)
  | flowInstance (i : Instance)
  | changeTracker (t : InstanceChangeTracker)

/-- A marshalled struct: its members in declaration order, each under the key
of its `json` tag. -/
abbrev Object (Instance InstanceChangeTracker : Type) :=
  List (String × Value Instance InstanceChangeTracker)

/-- The keys of a marshalled struct. -/
def Object.keys {Instance InstanceChangeTracker : Type}
    (o : Object Instance InstanceChangeTracker) : List String :=
  o.map Prod.fst

/-- Whether a member value is a full flow instance. -/
def Value.isInstance {Instance InstanceChangeTracker : Type} :
    Value Instance InstanceChangeTracker → Bool
  | Value.flowInstance _ => true
  | _ => false

end json

/-- `json.Marshal` of a `RecordSnapshotReq`, following its field tags. The source
discards the error result of `json.Marshal`, and marshalling is total here. -/
def RecordSnapshotReq.Marshal {Instance InstanceChangeTracker : Type}
    (r : RecordSnapshotReq Instance) : json.Object Instance InstanceChangeTracker :=
  [("id", json.Value.int r.ID),
   ("flowID", json.Value.string r.FlowID),
   ("state", json.Value.int r.State),
   ("status", json.Value.int r.Status),
   ("snapshotData", json.Value.flowInstance r.SnapshotData)]

/-- `json.Marshal` of a `RecordStepReq`, following its field tags. The source
discards the error result of `json.Marshal`, and marshalling is total here. -/
def RecordStepReq.Marshal {Instance InstanceChangeTracker : Type}
    (r : RecordStepReq InstanceChangeTracker) : json.Object Instance InstanceChangeTracker :=
  [("id", json.Value.int r.ID),
   ("flowID", json.Value.string r.FlowID),
   ("state", json.Value.int r.State),
   ("status", json.Value.int r.Status),
   ("stepData", json.Value.changeTracker r.StepData)]

/-! ## HTTP -/

namespace http

/-- A request header: key and value pairs. -/
abbrev Header := List (String × String)

/-- `Header.Set`: sets the entry of `key` to the single value `value`,
replacing any existing value. -/
def Header.Set (h : Header) (key value : String) : Header :=
  (key, value) :: h.filter (fun kv => kv.1 != key)

/-- The parts of an `http.Request` that the recorder fills in. -/
structure Request (Body : Type) where
  Method : String
  URL : String
  Header : Header
  Body : Body

/-- The parts of an `http.Response` that the recorder looks at. -/
structure Response where
  Status : String
  StatusCode : Int

/-- `http.NewRequest`: a request with the given method, target and body and an
empty header, or no request (`nil`, with an error) when the target does not
parse. `parse` says whether `url.Parse`, which `http.NewRequest` calls on the
target, accepts it; the method `POST` used by the source is always accepted. -/
def NewRequest {Body : Type} (parse : String → Bool) (method url : String) (body : Body) :
    Option (Request Body) :=
  if parse url then some { Method := method, URL := url, Header := [], Body := body }
  else none

end http

/-- The value a recording call panics with: the runtime error of dereferencing a
`nil` pointer, or `panic(err)` for the error `err` of the HTTP client. -/
inductive Panic (Err : Type) where
  | nilDereference
  | error (err : Err)

/-- What a recording call did: the receiver after the call, the requests it
handed to the HTTP client, in order, and how it ended (`Except.error p` is a
panic with value `p`, `Except.ok ()` a normal return). -/
structure Outcome (Req Err : Type) where
  recorder : RemoteStateRecorder
  sent : List Req
  result : Except (Panic Err) Unit

namespace RemoteStateRecorder

variable {Instance InstanceChangeTracker StatusCode Err : Type}

/-- `RecordSnapshot`. `parse` is the URL check of `http.NewRequest` and `Do` the
client call `client.Do`, a function from the built request to a transport error
or a response. The error result of `http.NewRequest` is overwritten untested:
when no request was built, `req.Header.Set` dereferences the `nil` request and
the call panics before anything is handed to the client. A transport error is
re-raised with `panic(err)`. -/
def RecordSnapshot (parse : String → Bool)
    (api : InstanceAPI Instance InstanceChangeTracker StatusCode)
    (Do : http.Request (json.Object Instance InstanceChangeTracker) → Except Err http.Response)
    (sr : RemoteStateRecorder) (inst : Instance) :
    Outcome (http.Request (json.Object Instance InstanceChangeTracker)) Err :=
  let storeReq : RecordSnapshotReq Instance :=
    { ID := api.StepID inst
      FlowID := api.ID inst
      State := api.State inst
      Status := api.int (api.Status inst)
      SnapshotData := inst }
  let uri := sr.host ++ "/instances/snapshot"
  let jsonReq : json.Object Instance InstanceChangeTracker := storeReq.Marshal
  match http.NewRequest parse "POST" uri jsonReq with
  | none => { recorder := sr, sent := [], result := Except.error Panic.nilDereference }
  | some req =>
    let req := { req with Header := req.Header.Set "Content-Type" "application/json" }
    match Do req with
    | Except.error err => { recorder := sr, sent := [req], result := Except.error (Panic.error err) }
    | Except.ok resp =>
      if resp.StatusCode ≥ 300 then
        { recorder := sr, sent := [req], result := Except.ok () }
      else
        { recorder := sr, sent := [req], result := Except.ok () }

/-- `RecordStep`. `parse` is the URL check of `http.NewRequest` and `Do` the
client call `client.Do`, a function from the built request to a transport error
or a response. The error result of `http.NewRequest` is overwritten untested:
when no request was built, `req.Header.Set` dereferences the `nil` request and
the call panics before anything is handed to the client. A transport error is
re-raised with `panic(err)`. -/
def RecordStep (parse : String → Bool)
    (api : InstanceAPI Instance InstanceChangeTracker StatusCode)
    (Do : http.Request (json.Object Instance InstanceChangeTracker) → Except Err http.Response)
    (sr : RemoteStateRecorder) (inst : Instance) :
    Outcome (http.Request (json.Object Instance InstanceChangeTracker)) Err :=
  let storeReq : RecordStepReq InstanceChangeTracker :=
    { ID := api.StepID inst
      FlowID := api.ID inst
      State := api.State inst
      Status := api.int (api.Status inst)
      StepData := api.ChangeTracker inst }
  let uri := sr.host ++ "/instances/steps"
  let jsonReq : json.Object Instance InstanceChangeTracker := storeReq.Marshal
  match http.NewRequest parse "POST" uri jsonReq with
  | none => { recorder := sr, sent := [], result := Except.error Panic.nilDereference }
  | some req =>
    let req := { req with Header := req.Header.Set "Content-Type" "application/json" }
    match Do req with
    | Except.error err => { recorder := sr, sent := [req], result := Except.error (Panic.error err) }
    | Except.ok resp =>
      if resp.StatusCode ≥ 300 then
        { recorder := sr, sent := [req], result := Except.ok () }
      else
        { recorder := sr, sent := [req], result := Except.ok () }

end RemoteStateRecorder

/-! ## Sequences of operations on one recorder -/

/-- One call on a recorder. -/
inductive Op (Instance : Type) where
  | Name
  | Enabled
  | Start
  | Stop
  | RecordSnapshot (i : Instance)
  | RecordStep (i : Instance)

section Run

variable {Instance InstanceChangeTracker StatusCode Err : Type}

/-- Performs one call: the receiver after the call and the panic value if the
call panicked. -/
def Op.exec (ServiceStateRecorder : String) (parse : String → Bool)
    (api : InstanceAPI Instance InstanceChangeTracker StatusCode)
    (Do : http.Request (json.Object Instance InstanceChangeTracker) → Except Err http.Response)
    (sr : RemoteStateRecorder) : Op Instance → RemoteStateRecorder × Option (Panic Err)
  | Op.Name => let _ := sr.Name ServiceStateRecorder; (sr, none)
  | Op.Enabled => let _ := sr.Enabled; (sr, none)
  | Op.Start => let _ := sr.Start; (sr, none)
  | Op.Stop => let _ := sr.Stop; (sr, none)
  | Op.RecordSnapshot i =>
    let out := RemoteStateRecorder.RecordSnapshot parse api Do sr i
    match out.result with
    | Except.ok _ => (out.recorder, none)
    | Except.error p => (out.recorder, some p)
  | Op.RecordStep i =>
    let out := RemoteStateRecorder.RecordStep parse api Do sr i
    match out.result with
    | Except.ok _ => (out.recorder, none)
    | Except.error p => (out.recorder, some p)

/-- Performs a sequence of calls in order, stopping at the first panic: the
recorder at the end and the panic value if a call panicked. -/
def run (ServiceStateRecorder : String) (parse : String → Bool)
    (api : InstanceAPI Instance InstanceChangeTracker StatusCode)
    (Do : http.Request (json.Object Instance InstanceChangeTracker) → Except Err http.Response) :
    RemoteStateRecorder → List (Op Instance) → RemoteStateRecorder × Option (Panic Err)
  | sr, [] => (sr, none)
  | sr, op :: ops =>
    match op.exec ServiceStateRecorder parse api Do sr with
    | (sr1, none) => run ServiceStateRecorder parse api Do sr1 ops
    | (sr1, some p) => (sr1, some p)

end Run

/-! ## A concrete instance type -/

/-- A concrete flow instance on which the recording calls can be evaluated:
identity, step counter, state code, status code and the changes of the current
step. -/
structure SampleInstance where
  id : String
  stepID : Int
  state : Int
  status : Nat
  changes : List String

/-- The accessors of `SampleInstance`. -/
def sampleAPI : InstanceAPI SampleInstance (List String) Nat where
  StepID := fun i => i.stepID
  ID := fun i => i.id
  State := fun i => i.state
  Status := fun i => i.status
  int := fun c => (c : Int)
  ChangeTracker := fun i => i.changes

/-- A flow instance at its third step. -/
def sampleInstance : SampleInstance :=
  { id := "flow-1", stepID := 3, state := 0, status := 100, changes := ["a=1"] }

/-- A collector that answers every request with status 500. -/
def serverError (_req : http.Request (json.Object SampleInstance (List String))) :
    Except String http.Response :=
  Except.ok { Status := "500 Internal Server Error", StatusCode := 500 }

/-- A collector that cannot be reached. -/
def unreachable (_req : http.Request (json.Object SampleInstance (List String))) :
    Except String http.Response :=
  Except.error "connection refused"

/-- A URL check that accepts a target unless it has a space in it; `url.Parse`
rejects a target whose host name has a space in it. -/
def parseNoSpace (url : String) : Bool :=
  !url.data.contains ' '

/-! ## Facts about the library functions -/

theorem strings.indexFrom_cases (substr s : List Char) (i : Nat) :
    strings.indexFrom substr s i = -1 ∨ (i : Int) ≤ strings.indexFrom substr s i := by
  induction s generalizing i with
  | nil =>
    unfold strings.indexFrom
    split
    · exact Or.inr (le_refl _)
    · exact Or.inl rfl
  | cons c cs ih =>
    unfold strings.indexFrom
    split
    · exact Or.inr (le_refl _)
    · rcases ih (i + 1) with h | h
      · exact Or.inl h
      · refine Or.inr ?_
        have : (i : Int) ≤ ((i + 1 : Nat) : Int) := by push_cast; omega
        exact le_trans this h

theorem strings.indexFrom_zero_iff (substr s : List Char) :
    strings.indexFrom substr s 0 = 0 ↔ substr.isPrefixOf s = true := by
  cases s with
  | nil =>
    unfold strings.indexFrom
    split <;> simp_all
  | cons c cs =>
    unfold strings.indexFrom
    split
    · simp_all
    · rename_i h
      constructor
      · intro h0
        rcases strings.indexFrom_cases substr cs (0 + 1) with h1 | h1
        · omega
        · have : ((0 + 1 : Nat) : Int) = 1 := by norm_num
          omega
      · intro hp
        exact absurd hp h

/-- `strings.Index s substr` is `0` exactly when `s` begins with `substr`. -/
theorem strings.Index_eq_zero_iff (s substr : String) :
    strings.Index s substr = 0 ↔ ∃ t : String, s = substr ++ t := by
  unfold strings.Index
  rw [strings.indexFrom_zero_iff, List.isPrefixOf_iff_prefix]
  constructor
  · rintro ⟨t, ht⟩
    refine ⟨⟨t⟩, ?_⟩
    apply String.ext
    simp [String.data_append, ht]
  · rintro ⟨t, rfl⟩
    exact ⟨t.data, by simp [String.data_append]⟩

theorem mapIndex_some (m : StringMap) (k v : String) (h : m.lookup k = some v) :
    mapIndex m k = (v, true) := by
  simp [mapIndex, h]

theorem mapIndex_none (m : StringMap) (k : String) (h : m.lookup k = none) :
    mapIndex m k = ("", false) := by
  simp [mapIndex, h]

/-! ## Initialisation -/

theorem RemoteStateRecorder.init_port_absent (sr : RemoteStateRecorder) (settings : StringMap)
    (hp : settings.lookup "port" = none) :
    sr.init settings = Except.error "RemoteStateRecorder: requried setting 'host' not set" := by
  simp [RemoteStateRecorder.init, mapIndex_none settings "port" hp]

theorem RemoteStateRecorder.init_port_present (sr : RemoteStateRecorder) (settings : StringMap)
    (p : String) (hp : settings.lookup "port" = some p) :
    sr.init settings =
      if strings.Index (mapIndex settings "host").1 "http" != 0 then
        Except.ok { sr with host := "http://" ++ (mapIndex settings "host").1 ++ ":" ++ p }
      else
        Except.ok { sr with host := (mapIndex settings "host").1 ++ ":" ++ p } := by
  simp [RemoteStateRecorder.init, mapIndex_some settings "port" p hp]

/-- C10: `init` panics exactly when the `port` key is absent, whether or not
`host` is present; with `port` = `p` and no `host` key it succeeds and sets the
host to `"http://:" ++ p`. -/
theorem RemoteStateRecorder.init_panics_iff_port_absent (sr : RemoteStateRecorder)
    (settings : StringMap) :
    ((∃ msg, sr.init settings = Except.error msg) ↔ settings.lookup "port" = none) ∧
    (∀ p, settings.lookup "host" = none → settings.lookup "port" = some p →
      sr.init settings = Except.ok { sr with host := "http://:" ++ p }) := by
  constructor
  · constructor
    · rintro ⟨msg, hmsg⟩
      cases hp : settings.lookup "port" with
      | none => rfl
      | some p =>
        rw [RemoteStateRecorder.init_port_present sr settings p hp] at hmsg
        split at hmsg <;> cases hmsg
    · intro hp
      exact ⟨_, RemoteStateRecorder.init_port_absent sr settings hp⟩
  · intro p hh hp
    rw [RemoteStateRecorder.init_port_present sr settings p hp, mapIndex_none settings "host" hh]
    rfl

theorem RemoteStateRecorder.init_panics_iff_port_absent_witness :
    ((∃ msg, RemoteStateRecorder.init ⟨"", true⟩ [("port", "9190")] = Except.error msg) ↔
        List.lookup "port" [("port", "9190")] = none) ∧
    (∀ p, List.lookup "host" [("port", "9190")] = none →
      List.lookup "port" [("port", "9190")] = some p →
      RemoteStateRecorder.init ⟨"", true⟩ [("port", "9190")] =
        Except.ok { (⟨"", true⟩ : RemoteStateRecorder) with host := "http://:" ++ p }) ∧
    List.lookup "host" [("port", "9190")] = none ∧
    List.lookup "port" [("port", "9190")] = some "9190" ∧
    RemoteStateRecorder.init ⟨"", true⟩ [("port", "9190")] = Except.ok ⟨"http://:9190", true⟩ :=
  ⟨(RemoteStateRecorder.init_panics_iff_port_absent ⟨"", true⟩ [("port", "9190")]).1,
   (RemoteStateRecorder.init_panics_iff_port_absent ⟨"", true⟩ [("port", "9190")]).2,
   by decide, by decide,
   (RemoteStateRecorder.init_panics_iff_port_absent ⟨"", true⟩ [("port", "9190")]).2 "9190"
     (by decide) (by decide)⟩

/-- C3: when the settings hold a `host` value `h` that does not begin with
`"http"` and a `port` value `p`, `init` succeeds and sets the host to
`"http://" ++ h ++ ":" ++ p`. -/
theorem RemoteStateRecorder.init_bare_host (sr : RemoteStateRecorder) (settings : StringMap)
    (h p : String) (hh : settings.lookup "host" = some h) (hp : settings.lookup "port" = some p)
    (hn : ¬ ∃ t : String, h = "http" ++ t) :
    sr.init settings = Except.ok { sr with host := "http://" ++ h ++ ":" ++ p } := by
  rw [RemoteStateRecorder.init_port_present sr settings p hp, mapIndex_some settings "host" h hh]
  have hi : strings.Index h "http" ≠ 0 := fun h0 => hn ((strings.Index_eq_zero_iff h "http").1 h0)
  simp [hi]

theorem RemoteStateRecorder.init_bare_host_witness :
    RemoteStateRecorder.init ⟨"", false⟩ [("host", ""), ("port", "9190")] =
      Except.ok ⟨"http://:9190", false⟩ :=
  RemoteStateRecorder.init_bare_host ⟨"", false⟩ [("host", ""), ("port", "9190")] "" "9190"
    (by decide) (by decide)
    (fun hex => absurd ((strings.Index_eq_zero_iff "" "http").2 hex) (by decide))

/-- C4: when the settings hold a `host` value `h` that begins with `"http"` and
a `port` value `p`, `init` succeeds and sets the host to `h ++ ":" ++ p`: no
scheme is added and `:port` is appended whatever `h` ends in. -/
theorem RemoteStateRecorder.init_url_host (sr : RemoteStateRecorder) (settings : StringMap)
    (h p : String) (hh : settings.lookup "host" = some h) (hp : settings.lookup "port" = some p)
    (hb : ∃ t : String, h = "http" ++ t) :
    sr.init settings = Except.ok { sr with host := h ++ ":" ++ p } := by
  rw [RemoteStateRecorder.init_port_present sr settings p hp, mapIndex_some settings "host" h hh]
  have hi : strings.Index h "http" = 0 := (strings.Index_eq_zero_iff h "http").2 hb
  simp [hi]

theorem RemoteStateRecorder.init_url_host_witness :
    RemoteStateRecorder.init ⟨"", true⟩ [("host", "http://localhost:9190"), ("port", "8080")] =
      Except.ok ⟨"http://localhost:9190:8080", true⟩ :=
  RemoteStateRecorder.init_url_host ⟨"", true⟩
    [("host", "http://localhost:9190"), ("port", "8080")] "http://localhost:9190" "8080"
    (by decide) (by decide) ⟨"://localhost:9190", by decide⟩

/-- C1 (evaluation at the failing input): for the settings `port` = `"8080"`
without a `host` key, `init` does not panic: it returns a recorder whose host is
`"http://:8080"`, and so does `NewRemoteStateRecorder`. -/
theorem RemoteStateRecorder.init_without_host_returns :
    List.lookup "host" [("port", "8080")] = (none : Option String) ∧
    RemoteStateRecorder.init ⟨"", true⟩ [("port", "8080")] = Except.ok ⟨"http://:8080", true⟩ ∧
    NewRemoteStateRecorder { Name := "stateRecorder", Enabled := true, Settings := [("port", "8080")] } =
      Except.ok ⟨"http://:8080", true⟩ :=
  ⟨by decide, by rfl, by rfl⟩

/-- C2 (evaluation at the failing input): for the settings `host` =
`"http://localhost:9190"` without a `port` key, `init` panics, with a message
saying that `host` is not set, and `NewRemoteStateRecorder` returns no
recorder. -/
theorem RemoteStateRecorder.init_url_without_port_panics :
    List.lookup "host" [("host", "http://localhost:9190")] = some "http://localhost:9190" ∧
    List.lookup "port" [("host", "http://localhost:9190")] = (none : Option String) ∧
    RemoteStateRecorder.init ⟨"", true⟩ [("host", "http://localhost:9190")] =
      Except.error "RemoteStateRecorder: requried setting 'host' not set" ∧
    NewRemoteStateRecorder
        { Name := "stateRecorder", Enabled := true, Settings := [("host", "http://localhost:9190")] } =
      Except.error "RemoteStateRecorder: requried setting 'host' not set" :=
  ⟨by decide, by decide, by rfl, by rfl⟩

/-- C7: `DefaultConfig()` has the state-recorder service identifier as its name,
`Enabled = true` and the one-entry settings map `host` = `""`; constructing a
recorder from it panics in `init`. -/
theorem DefaultConfig_panics (ServiceStateRecorder : String) :
    (DefaultConfig ServiceStateRecorder).Name = ServiceStateRecorder ∧
    (DefaultConfig ServiceStateRecorder).Enabled = true ∧
    (DefaultConfig ServiceStateRecorder).Settings = [("host", "")] ∧
    NewRemoteStateRecorder (DefaultConfig ServiceStateRecorder) =
      Except.error "RemoteStateRecorder: requried setting 'host' not set" :=
  ⟨rfl, rfl, rfl, by rfl⟩

/-! ## Recording calls -/

section Recording

variable {Instance InstanceChangeTracker StatusCode Err : Type}

theorem RemoteStateRecorder.RecordSnapshot_unparsed (parse : String → Bool)
    (api : InstanceAPI Instance InstanceChangeTracker StatusCode)
    (Do : http.Request (json.Object Instance InstanceChangeTracker) → Except Err http.Response)
    (sr : RemoteStateRecorder) (i : Instance)
    (hparse : parse (sr.host ++ "/instances/snapshot") = false) :
    RemoteStateRecorder.RecordSnapshot parse api Do sr i =
      { recorder := sr, sent := [], result := Except.error Panic.nilDereference } := by
  simp [RemoteStateRecorder.RecordSnapshot, http.NewRequest, hparse]

theorem RemoteStateRecorder.RecordSnapshot_parsed (parse : String → Bool)
    (api : InstanceAPI Instance InstanceChangeTracker StatusCode)
    (Do : http.Request (json.Object Instance InstanceChangeTracker) → Except Err http.Response)
    (sr : RemoteStateRecorder) (i : Instance)
    (hparse : parse (sr.host ++ "/instances/snapshot") = true) :
    RemoteStateRecorder.RecordSnapshot parse api Do sr i =
      { recorder := sr
        sent :=
          [{ Method := "POST"
             URL := sr.host ++ "/instances/snapshot"
             Header := [("Content-Type", "application/json")]
             Body := RecordSnapshotReq.Marshal
               { ID := api.StepID i, FlowID := api.ID i, State := api.State i,
                 Status := api.int (api.Status i), SnapshotData := i } }]
        result :=
          match Do { Method := "POST"
                     URL := sr.host ++ "/instances/snapshot"
                     Header := [("Content-Type", "application/json")]
                     Body := RecordSnapshotReq.Marshal
                       { ID := api.StepID i, FlowID := api.ID i, State := api.State i,
                         Status := api.int (api.Status i), SnapshotData := i } } with
          | Except.error err => Except.error (Panic.error err)
          | Except.ok _ => Except.ok () } := by
  simp only [RemoteStateRecorder.RecordSnapshot, http.NewRequest, hparse, if_true,
    http.Header.Set, List.filter_nil]
  split
  · rfl
  · split <;> rfl

theorem RemoteStateRecorder.RecordStep_unparsed (parse : String → Bool)
    (api : InstanceAPI Instance InstanceChangeTracker StatusCode)
    (Do : http.Request (json.Object Instance InstanceChangeTracker) → Except Err http.Response)
    (sr : RemoteStateRecorder) (i : Instance)
    (hparse : parse (sr.host ++ "/instances/steps") = false) :
    RemoteStateRecorder.RecordStep parse api Do sr i =
      { recorder := sr, sent := [], result := Except.error Panic.nilDereference } := by
  simp [RemoteStateRecorder.RecordStep, http.NewRequest, hparse]

theorem RemoteStateRecorder.RecordStep_parsed (parse : String → Bool)
    (api : InstanceAPI Instance InstanceChangeTracker StatusCode)
    (Do : http.Request (json.Object Instance InstanceChangeTracker) → Except Err http.Response)
    (sr : RemoteStateRecorder) (i : Instance)
    (hparse : parse (sr.host ++ "/instances/steps") = true) :
    RemoteStateRecorder.RecordStep parse api Do sr i =
      { recorder := sr
        sent :=
          [{ Method := "POST"
             URL := sr.host ++ "/instances/steps"
             Header := [("Content-Type", "application/json")]
             Body := RecordStepReq.Marshal
               { ID := api.StepID i, FlowID := api.ID i, State := api.State i,
                 Status := api.int (api.Status i), StepData := api.ChangeTracker i } }]
        result :=
          match Do { Method := "POST"
                     URL := sr.host ++ "/instances/steps"
                     Header := [("Content-Type", "application/json")]
                     Body := RecordStepReq.Marshal
                       { ID := api.StepID i, FlowID := api.ID i, State := api.State i,
                         Status := api.int (api.Status i), StepData := api.ChangeTracker i } } with
          | Except.error err => Except.error (Panic.error err)
          | Except.ok _ => Except.ok () } := by
  simp only [RemoteStateRecorder.RecordStep, http.NewRequest, hparse, if_true,
    http.Header.Set, List.filter_nil]
  split
  · rfl
  · split <;> rfl

theorem RemoteStateRecorder.RecordSnapshot_recorder (parse : String → Bool)
    (api : InstanceAPI Instance InstanceChangeTracker StatusCode)
    (Do : http.Request (json.Object Instance InstanceChangeTracker) → Except Err http.Response)
    (sr : RemoteStateRecorder) (i : Instance) :
    (RemoteStateRecorder.RecordSnapshot parse api Do sr i).recorder = sr := by
  cases hparse : parse (sr.host ++ "/instances/snapshot") with
  | false => rw [RemoteStateRecorder.RecordSnapshot_unparsed parse api Do sr i hparse]
  | true => rw [RemoteStateRecorder.RecordSnapshot_parsed parse api Do sr i hparse]

theorem RemoteStateRecorder.RecordStep_recorder (parse : String → Bool)
    (api : InstanceAPI Instance InstanceChangeTracker StatusCode)
    (Do : http.Request (json.Object Instance InstanceChangeTracker) → Except Err http.Response)
    (sr : RemoteStateRecorder) (i : Instance) :
    (RemoteStateRecorder.RecordStep parse api Do sr i).recorder = sr := by
  cases hparse : parse (sr.host ++ "/instances/steps") with
  | false => rw [RemoteStateRecorder.RecordStep_unparsed parse api Do sr i hparse]
  | true => rw [RemoteStateRecorder.RecordStep_parsed parse api Do sr i hparse]

/-- C5 (amended): when `http.NewRequest` accepts the target `host ++
"/instances/snapshot"`, `RecordSnapshot` hands exactly one request to the HTTP
client: a `POST` to that target with the header `Content-Type:
application/json`, whose body is the envelope with `id` = `StepID()`, `flowID` =
`ID()`, `state` = `State()`, `status` = `int(Status())` and `snapshotData` = the
instance itself, under exactly these JSON keys. -/
theorem RemoteStateRecorder.RecordSnapshot_request (parse : String → Bool)
    (api : InstanceAPI Instance InstanceChangeTracker StatusCode)
    (Do : http.Request (json.Object Instance InstanceChangeTracker) → Except Err http.Response)
    (sr : RemoteStateRecorder) (i : Instance)
    (hparse : parse (sr.host ++ "/instances/snapshot") = true) :
    (RemoteStateRecorder.RecordSnapshot parse api Do sr i).sent =
      [{ Method := "POST"
         URL := sr.host ++ "/instances/snapshot"
         Header := [("Content-Type", "application/json")]
         Body := RecordSnapshotReq.Marshal
           { ID := api.StepID i, FlowID := api.ID i, State := api.State i,
             Status := api.int (api.Status i), SnapshotData := i } }] ∧
    (RecordSnapshotReq.Marshal
        { ID := api.StepID i, FlowID := api.ID i, State := api.State i,
          Status := api.int (api.Status i), SnapshotData := i } :
          json.Object Instance InstanceChangeTracker) =
      [("id", json.Value.int (api.StepID i)),
       ("flowID", json.Value.string (api.ID i)),
       ("state", json.Value.int (api.State i)),
       ("status", json.Value.int (api.int (api.Status i))),
       ("snapshotData", json.Value.flowInstance i)] := by
  rw [RemoteStateRecorder.RecordSnapshot_parsed parse api Do sr i hparse]
  exact ⟨rfl, rfl⟩

/-- C6 (amended): when `http.NewRequest` accepts the target `host ++
"/instances/steps"`, `RecordStep` hands exactly one request to the HTTP client:
a `POST` to that target with the header `Content-Type: application/json`, whose
body is the envelope with `id` = `StepID()`, `flowID` = `ID()`, `state` =
`State()`, `status` = `int(Status())` and `stepData` = the change tracker of the
instance; the body has no `snapshotData` key and no member holding the full
instance. -/
theorem RemoteStateRecorder.RecordStep_request (parse : String → Bool)
    (api : InstanceAPI Instance InstanceChangeTracker StatusCode)
    (Do : http.Request (json.Object Instance InstanceChangeTracker) → Except Err http.Response)
    (sr : RemoteStateRecorder) (i : Instance)
    (hparse : parse (sr.host ++ "/instances/steps") = true) :
    (RemoteStateRecorder.RecordStep parse api Do sr i).sent =
      [{ Method := "POST"
         URL := sr.host ++ "/instances/steps"
         Header := [("Content-Type", "application/json")]
         Body := RecordStepReq.Marshal
           { ID := api.StepID i, FlowID := api.ID i, State := api.State i,
             Status := api.int (api.Status i), StepData := api.ChangeTracker i } }] ∧
    (RecordStepReq.Marshal
        { ID := api.StepID i, FlowID := api.ID i, State := api.State i,
          Status := api.int (api.Status i), StepData := api.ChangeTracker i } :
          json.Object Instance InstanceChangeTracker) =
      [("id", json.Value.int (api.StepID i)),
       ("flowID", json.Value.string (api.ID i)),
       ("state", json.Value.int (api.State i)),
       ("status", json.Value.int (api.int (api.Status i))),
       ("stepData", json.Value.changeTracker (api.ChangeTracker i))] ∧
    (∀ req ∈ (RemoteStateRecorder.RecordStep parse api Do sr i).sent,
      "snapshotData" ∉ json.Object.keys req.Body ∧
      ∀ member ∈ req.Body, member.2.isInstance = false) := by
  rw [RemoteStateRecorder.RecordStep_parsed parse api Do sr i hparse]
  refine ⟨rfl, rfl, ?_⟩
  intro req hreq
  simp only [List.mem_singleton] at hreq
  subst hreq
  constructor
  · simp [json.Object.keys, RecordStepReq.Marshal]
  · intro member hm
    simp only [RecordStepReq.Marshal, List.mem_cons, List.mem_singleton] at hm
    rcases hm with h | h | h | h | h | h
    · subst h; rfl
    · subst h; rfl
    · subst h; rfl
    · subst h; rfl
    · subst h; rfl
    · simp at h

/-- C8 (amended): when `http.NewRequest` accepts the targets, so that the request
is built, `RecordSnapshot` and `RecordStep` panic exactly when the HTTP client
returns a transport error for that request; for every response, whatever its
status code, the call returns normally, has sent the one request and nothing
else and leaves the recorder as it was, so the outcome does not depend on the
response. -/
theorem RemoteStateRecorder.record_panics_iff_transport_error (parse : String → Bool)
    (api : InstanceAPI Instance InstanceChangeTracker StatusCode)
    (Do : http.Request (json.Object Instance InstanceChangeTracker) → Except Err http.Response)
    (sr : RemoteStateRecorder) (i : Instance)
    (hs : parse (sr.host ++ "/instances/snapshot") = true)
    (ht : parse (sr.host ++ "/instances/steps") = true) :
    (∃ req, (RemoteStateRecorder.RecordSnapshot parse api Do sr i).sent = [req] ∧
      ((∃ p, (RemoteStateRecorder.RecordSnapshot parse api Do sr i).result = Except.error p) ↔
        ∃ err, Do req = Except.error err) ∧
      (∀ err, Do req = Except.error err →
        (RemoteStateRecorder.RecordSnapshot parse api Do sr i).result =
          Except.error (Panic.error err)) ∧
      (∀ resp, Do req = Except.ok resp →
        RemoteStateRecorder.RecordSnapshot parse api Do sr i =
          { recorder := sr, sent := [req], result := Except.ok () })) ∧
    (∃ req, (RemoteStateRecorder.RecordStep parse api Do sr i).sent = [req] ∧
      ((∃ p, (RemoteStateRecorder.RecordStep parse api Do sr i).result = Except.error p) ↔
        ∃ err, Do req = Except.error err) ∧
      (∀ err, Do req = Except.error err →
        (RemoteStateRecorder.RecordStep parse api Do sr i).result =
          Except.error (Panic.error err)) ∧
      (∀ resp, Do req = Except.ok resp →
        RemoteStateRecorder.RecordStep parse api Do sr i =
          { recorder := sr, sent := [req], result := Except.ok () })) := by
  rw [RemoteStateRecorder.RecordSnapshot_parsed parse api Do sr i hs,
    RemoteStateRecorder.RecordStep_parsed parse api Do sr i ht]
  constructor
  · refine ⟨_, rfl, ?_, ?_, ?_⟩
    · simp only []
      split <;> simp_all
    · intro err h
      simp only [h]
    · intro resp h
      simp only [h]
  · refine ⟨_, rfl, ?_, ?_, ?_⟩
    · simp only []
      split <;> simp_all
    · intro err h
      simp only [h]
    · intro resp h
      simp only [h]

end Recording

theorem RemoteStateRecorder.RecordSnapshot_request_witness :
    (RemoteStateRecorder.RecordSnapshot parseNoSpace sampleAPI serverError ⟨"http://h:1", true⟩
        sampleInstance).sent =
      [{ Method := "POST"
         URL := "http://h:1/instances/snapshot"
         Header := [("Content-Type", "application/json")]
         Body := [("id", json.Value.int 3),
                  ("flowID", json.Value.string "flow-1"),
                  ("state", json.Value.int 0),
                  ("status", json.Value.int 100),
                  ("snapshotData", json.Value.flowInstance sampleInstance)] }] :=
  (RemoteStateRecorder.RecordSnapshot_request parseNoSpace sampleAPI serverError
    ⟨"http://h:1", true⟩ sampleInstance (by decide)).1

/-- C5 (counterexample): `init` returns the host `"http://a b:1"` for the settings
`host` = `"a b"`, `port` = `"1"`; the target built from it has a space in its
host name, no request is built, and `RecordSnapshot` hands nothing to the HTTP
client. -/
theorem RemoteStateRecorder.RecordSnapshot_unparsable_sends_nothing :
    NewRemoteStateRecorder
        { Name := "stateRecorder", Enabled := true, Settings := [("host", "a b"), ("port", "1")] } =
      Except.ok ⟨"http://a b:1", true⟩ ∧
    parseNoSpace ("http://a b:1" ++ "/instances/snapshot") = false ∧
    (RemoteStateRecorder.RecordSnapshot parseNoSpace sampleAPI serverError ⟨"http://a b:1", true⟩
      sampleInstance).sent = [] ∧
    ¬ ∃ req, (RemoteStateRecorder.RecordSnapshot parseNoSpace sampleAPI serverError
      ⟨"http://a b:1", true⟩ sampleInstance).sent = [req] := by
  have h := RemoteStateRecorder.RecordSnapshot_unparsed parseNoSpace sampleAPI serverError
    ⟨"http://a b:1", true⟩ sampleInstance (by decide)
  refine ⟨by rfl, by decide, by rw [h], ?_⟩
  rw [h]
  rintro ⟨req, hreq⟩
  cases hreq

theorem RemoteStateRecorder.RecordStep_request_witness :
    (RemoteStateRecorder.RecordStep parseNoSpace sampleAPI serverError ⟨"http://h:1", true⟩
        sampleInstance).sent =
      [{ Method := "POST"
         URL := "http://h:1/instances/steps"
         Header := [("Content-Type", "application/json")]
         Body := [("id", json.Value.int 3),
                  ("flowID", json.Value.string "flow-1"),
                  ("state", json.Value.int 0),
                  ("status", json.Value.int 100),
                  ("stepData", json.Value.changeTracker ["a=1"])] }] ∧
    (∀ req ∈ (RemoteStateRecorder.RecordStep parseNoSpace sampleAPI serverError
        ⟨"http://h:1", true⟩ sampleInstance).sent,
      "snapshotData" ∉ json.Object.keys req.Body ∧
      ∀ member ∈ req.Body, member.2.isInstance = false) :=
  ⟨(RemoteStateRecorder.RecordStep_request parseNoSpace sampleAPI serverError
      ⟨"http://h:1", true⟩ sampleInstance (by decide)).1,
   (RemoteStateRecorder.RecordStep_request parseNoSpace sampleAPI serverError
      ⟨"http://h:1", true⟩ sampleInstance (by decide)).2.2⟩

/-- C6 (counterexample): for the host `"http://a b:1"`, which `init` returns for
the settings `host` = `"a b"`, `port` = `"1"`, the target has a space in its host
name, no request is built, and `RecordStep` hands nothing to the HTTP client. -/
theorem RemoteStateRecorder.RecordStep_unparsable_sends_nothing :
    RemoteStateRecorder.init ⟨"", true⟩ [("host", "a b"), ("port", "1")] =
      Except.ok ⟨"http://a b:1", true⟩ ∧
    parseNoSpace ("http://a b:1" ++ "/instances/steps") = false ∧
    (RemoteStateRecorder.RecordStep parseNoSpace sampleAPI serverError ⟨"http://a b:1", true⟩
      sampleInstance).sent = [] ∧
    ¬ ∃ req, (RemoteStateRecorder.RecordStep parseNoSpace sampleAPI serverError
      ⟨"http://a b:1", true⟩ sampleInstance).sent = [req] := by
  have h := RemoteStateRecorder.RecordStep_unparsed parseNoSpace sampleAPI serverError
    ⟨"http://a b:1", true⟩ sampleInstance (by decide)
  refine ⟨by rfl, by decide, by rw [h], ?_⟩
  rw [h]
  rintro ⟨req, hreq⟩
  cases hreq

theorem RemoteStateRecorder.record_panics_iff_transport_error_witness :
    (RemoteStateRecorder.RecordSnapshot parseNoSpace sampleAPI serverError ⟨"http://h:1", true⟩
        sampleInstance).result = Except.ok () ∧
    (RemoteStateRecorder.RecordSnapshot parseNoSpace sampleAPI serverError ⟨"http://h:1", true⟩
        sampleInstance).recorder = ⟨"http://h:1", true⟩ ∧
    (RemoteStateRecorder.RecordStep parseNoSpace sampleAPI unreachable ⟨"http://h:1", true⟩
      sampleInstance).result = Except.error (Panic.error "connection refused") := by
  obtain ⟨⟨req, -, -, -, hok⟩, -⟩ :=
    RemoteStateRecorder.record_panics_iff_transport_error parseNoSpace sampleAPI serverError
      ⟨"http://h:1", true⟩ sampleInstance (by decide) (by decide)
  obtain ⟨-, ⟨req2, -, -, herr, -⟩⟩ :=
    RemoteStateRecorder.record_panics_iff_transport_error parseNoSpace sampleAPI unreachable
      ⟨"http://h:1", true⟩ sampleInstance (by decide) (by decide)
  have h := hok ⟨"500 Internal Server Error", 500⟩ rfl
  exact ⟨by rw [h], by rw [h], herr "connection refused" rfl⟩

/-- C8 (counterexample): for the host `"http://a b:1"` and a collector that
answers every request with status 500, so that the HTTP client never returns an
error, `RecordSnapshot` and `RecordStep` panic all the same, on the `nil`
request, with nothing handed to the client. -/
theorem RemoteStateRecorder.record_panics_without_transport_error :
    (∀ req, ¬ ∃ err, serverError req = Except.error err) ∧
    (RemoteStateRecorder.RecordSnapshot parseNoSpace sampleAPI serverError ⟨"http://a b:1", true⟩
      sampleInstance).result = Except.error Panic.nilDereference ∧
    (RemoteStateRecorder.RecordStep parseNoSpace sampleAPI serverError ⟨"http://a b:1", true⟩
      sampleInstance).result = Except.error Panic.nilDereference ∧
    ¬ ((∃ p, (RemoteStateRecorder.RecordSnapshot parseNoSpace sampleAPI serverError
          ⟨"http://a b:1", true⟩ sampleInstance).result = Except.error p) ↔
        ∃ req err, serverError req = Except.error err) := by
  have hnever : ∀ req, ¬ ∃ err, serverError req = Except.error err := by
    rintro req ⟨err, herr⟩
    cases herr
  have hs := RemoteStateRecorder.RecordSnapshot_unparsed parseNoSpace sampleAPI serverError
    ⟨"http://a b:1", true⟩ sampleInstance (by decide)
  have ht := RemoteStateRecorder.RecordStep_unparsed parseNoSpace sampleAPI serverError
    ⟨"http://a b:1", true⟩ sampleInstance (by decide)
  refine ⟨hnever, by rw [hs], by rw [ht], ?_⟩
  intro hiff
  obtain ⟨req, hreq⟩ := hiff.1 ⟨Panic.nilDereference, by rw [hs]⟩
  exact hnever req hreq

/-! ## The recorder over a sequence of calls -/

section Sequences

variable {Instance InstanceChangeTracker StatusCode Err : Type}

theorem Op.exec_recorder (ServiceStateRecorder : String) (parse : String → Bool)
    (api : InstanceAPI Instance InstanceChangeTracker StatusCode)
    (Do : http.Request (json.Object Instance InstanceChangeTracker) → Except Err http.Response)
    (sr : RemoteStateRecorder) (op : Op Instance) :
    (op.exec ServiceStateRecorder parse api Do sr).1 = sr := by
  cases op with
  | Name => rfl
  | Enabled => rfl
  | Start => rfl
  | Stop => rfl
  | RecordSnapshot i =>
    simp only [Op.exec]
    split <;> exact RemoteStateRecorder.RecordSnapshot_recorder parse api Do sr i
  | RecordStep i =>
    simp only [Op.exec]
    split <;> exact RemoteStateRecorder.RecordStep_recorder parse api Do sr i

theorem run_recorder (ServiceStateRecorder : String) (parse : String → Bool)
    (api : InstanceAPI Instance InstanceChangeTracker StatusCode)
    (Do : http.Request (json.Object Instance InstanceChangeTracker) → Except Err http.Response)
    (sr : RemoteStateRecorder) (ops : List (Op Instance)) :
    (run ServiceStateRecorder parse api Do sr ops).1 = sr := by
  induction ops generalizing sr with
  | nil => rfl
  | cons op ops ih =>
    have h := Op.exec_recorder ServiceStateRecorder parse api Do sr op
    unfold run
    split
    · rename_i sr1 heq
      rw [heq] at h
      simp only at h
      subst h
      exact ih sr1
    · rename_i sr1 err heq
      rw [heq] at h
      exact h

theorem NewRemoteStateRecorder_enabled (config : util.ServiceConfig) (sr : RemoteStateRecorder)
    (h : NewRemoteStateRecorder config = Except.ok sr) : sr.enabled = config.Enabled := by
  unfold NewRemoteStateRecorder at h
  cases hp : config.Settings.lookup "port" with
  | none =>
    rw [RemoteStateRecorder.init_port_absent _ _ hp] at h
    cases h
  | some p =>
    rw [RemoteStateRecorder.init_port_present _ _ p hp] at h
    split at h <;> (cases h; rfl)

/-- C9: when construction succeeds, `Enabled()` of the returned recorder is the
configuration's `Enabled` flag; after any sequence of the calls `Name`,
`Enabled`, `Start`, `Stop`, `RecordSnapshot` and `RecordStep` the recorder's
`Enabled()` and host are what they were; `Start` and `Stop` return no error. -/
theorem NewRemoteStateRecorder_enabled_stable (ServiceStateRecorder : String)
    (parse : String → Bool)
    (api : InstanceAPI Instance InstanceChangeTracker StatusCode)
    (Do : http.Request (json.Object Instance InstanceChangeTracker) → Except Err http.Response)
    (config : util.ServiceConfig) (sr : RemoteStateRecorder) (ops : List (Op Instance))
    (h : NewRemoteStateRecorder config = Except.ok sr) :
    sr.Enabled = config.Enabled ∧
    (run ServiceStateRecorder parse api Do sr ops).1.Enabled = config.Enabled ∧
    (run ServiceStateRecorder parse api Do sr ops).1.host = sr.host ∧
    sr.Start = none ∧ sr.Stop = none ∧
    (run ServiceStateRecorder parse api Do sr ops).1.Start = none ∧
    (run ServiceStateRecorder parse api Do sr ops).1.Stop = none := by
  rw [run_recorder]
  exact ⟨NewRemoteStateRecorder_enabled config sr h, NewRemoteStateRecorder_enabled config sr h,
    rfl, rfl, rfl, rfl, rfl⟩

theorem NewRemoteStateRecorder_enabled_stable_witness :
    NewRemoteStateRecorder
        { Name := "stateRecorder", Enabled := false,
          Settings := [("host", "localhost"), ("port", "9190")] } =
      Except.ok ⟨"http://localhost:9190", false⟩ ∧
    (run "stateRecorder" parseNoSpace sampleAPI unreachable ⟨"http://localhost:9190", false⟩
      [Op.Enabled, Op.Start, Op.RecordStep sampleInstance, Op.Stop]).1.Enabled = false ∧
    (run "stateRecorder" parseNoSpace sampleAPI unreachable ⟨"http://localhost:9190", false⟩
      [Op.Enabled, Op.Start, Op.RecordStep sampleInstance, Op.Stop]).1.host =
        "http://localhost:9190" :=
  ⟨by rfl,
   (NewRemoteStateRecorder_enabled_stable "stateRecorder" parseNoSpace sampleAPI unreachable
      { Name := "stateRecorder", Enabled := false,
        Settings := [("host", "localhost"), ("port", "9190")] }
      ⟨"http://localhost:9190", false⟩
      [Op.Enabled, Op.Start, Op.RecordStep sampleInstance, Op.Stop] (by rfl)).2.1,
   (NewRemoteStateRecorder_enabled_stable "stateRecorder" parseNoSpace sampleAPI unreachable
      { Name := "stateRecorder", Enabled := false,
        Settings := [("host", "localhost"), ("port", "9190")] }
      ⟨"http://localhost:9190", false⟩
      [Op.Enabled, Op.Start, Op.RecordStep sampleInstance, Op.Stop] (by rfl)).2.2.1⟩

end Sequences

end FlowRecorder
